import Mathlib

/-!
Verification development for the page-flip widget (react-pageflip):
shallow embedding of the settings normalizer (`Settings.ts`), the
gesture state machine of the UI class, and the geometry helpers
(`Helper.ts`), together with theorems about the claims of the spec.

Numbers in the gesture machine and the settings normalizer are modelled
as exact rationals (all operations used there are field operations and
comparisons); the geometry helpers that need square roots are modelled
over the reals.
-/

namespace Settings

/-- `SizeType` in `Settings.ts` is a string type with the two documented
values `'fixed'` and `'stretch'`; the validation in `getSettings`
compares against these strings, so we keep the string representation. -/
def SizeType.FIXED : String := "fixed"

def SizeType.STRETCH : String := "stretch"

/-- The `FlipSetting` configuration object (`Settings.ts`). -/
structure FlipSetting where
  startPage : ℚ
  size : String
  width : ℚ
  height : ℚ
  minWidth : ℚ
  maxWidth : ℚ
  minHeight : ℚ
  maxHeight : ℚ
  drawShadow : Bool
  flippingTime : ℚ
  usePortrait : Bool
  startZIndex : ℚ
  autoSize : Bool
  maxShadowOpacity : ℚ
  showCover : Bool
  mobileScrollSupport : Bool
  swipeDistance : ℚ
  clickEventForward : Bool
  useMouseEvents : Bool
  showPageCorners : Bool
  disableFlipByClick : Bool
  singlePage : Bool
  deriving DecidableEq, Repr

/-- The initial value of the private `_default` field of a fresh
`Settings` instance. -/
def defaultSetting : FlipSetting where
  startPage := 0
  size := SizeType.FIXED
  width := 0
  height := 0
  minWidth := 0
  maxWidth := 0
  minHeight := 0
  maxHeight := 0
  drawShadow := true
  flippingTime := 1000
  usePortrait := true
  startZIndex := 0
  autoSize := true
  maxShadowOpacity := 1
  showCover := false
  mobileScrollSupport := true
  swipeDistance := 30
  clickEventForward := true
  useMouseEvents := true
  showPageCorners := true
  disableFlipByClick := false
  singlePage := false

/-- The `userSetting : Record<string, any>` argument of `getSettings`:
a partial configuration, each field optionally present. -/
structure UserSetting where
  startPage : Option ℚ := none
  size : Option String := none
  width : Option ℚ := none
  height : Option ℚ := none
  minWidth : Option ℚ := none
  maxWidth : Option ℚ := none
  minHeight : Option ℚ := none
  maxHeight : Option ℚ := none
  drawShadow : Option Bool := none
  flippingTime : Option ℚ := none
  usePortrait : Option Bool := none
  startZIndex : Option ℚ := none
  autoSize : Option Bool := none
  maxShadowOpacity : Option ℚ := none
  showCover : Option Bool := none
  mobileScrollSupport : Option Bool := none
  swipeDistance : Option ℚ := none
  clickEventForward : Option Bool := none
  useMouseEvents : Option Bool := none
  showPageCorners : Option Bool := none
  disableFlipByClick : Option Bool := none
  singlePage : Option Bool := none
  deriving DecidableEq, Repr

/-- `Object.assign(result, userSetting)`: every key present in the user
setting overwrites the corresponding field of `result`. -/
def assign (s : FlipSetting) (u : UserSetting) : FlipSetting where
  startPage := u.startPage.getD s.startPage
  size := u.size.getD s.size
  width := u.width.getD s.width
  height := u.height.getD s.height
  minWidth := u.minWidth.getD s.minWidth
  maxWidth := u.maxWidth.getD s.maxWidth
  minHeight := u.minHeight.getD s.minHeight
  maxHeight := u.maxHeight.getD s.maxHeight
  drawShadow := u.drawShadow.getD s.drawShadow
  flippingTime := u.flippingTime.getD s.flippingTime
  usePortrait := u.usePortrait.getD s.usePortrait
  startZIndex := u.startZIndex.getD s.startZIndex
  autoSize := u.autoSize.getD s.autoSize
  maxShadowOpacity := u.maxShadowOpacity.getD s.maxShadowOpacity
  showCover := u.showCover.getD s.showCover
  mobileScrollSupport := u.mobileScrollSupport.getD s.mobileScrollSupport
  swipeDistance := u.swipeDistance.getD s.swipeDistance
  clickEventForward := u.clickEventForward.getD s.clickEventForward
  useMouseEvents := u.useMouseEvents.getD s.useMouseEvents
  showPageCorners := u.showPageCorners.getD s.showPageCorners
  disableFlipByClick := u.disableFlipByClick.getD s.disableFlipByClick
  singlePage := u.singlePage.getD s.singlePage

/-- The validation and bound-rewriting part of `Settings.getSettings`
(`Settings.ts`, lines 112-134), acting on the already-assigned `result`
object.  The sequential field mutations of the stretch branch are
embedded as a chain of scalar lets: `result.minWidth` is rewritten
first, and the `maxWidth` comparison reads the rewritten value, exactly
as in the source. -/
def validateSettings (result : FlipSetting) : Except String FlipSetting :=
  if result.size ≠ SizeType.STRETCH ∧ result.size ≠ SizeType.FIXED then
    .error "Invalid size type. Available only \x22fixed\x22 and \x22stretch\x22 value"
  else if result.width ≤ 0 ∨ result.height ≤ 0 then
    .error "Invalid width or height"
  else if result.flippingTime ≤ 0 then
    .error "Invalid flipping time"
  else if result.size = SizeType.STRETCH then
    let newMinWidth := if result.minWidth ≤ 0 then 100 else result.minWidth
    let newMaxWidth := if result.maxWidth < newMinWidth then 2000 else result.maxWidth
    let newMinHeight := if result.minHeight ≤ 0 then 100 else result.minHeight
    let newMaxHeight := if result.maxHeight < newMinHeight then 2000 else result.maxHeight
    .ok { result with
            minWidth := newMinWidth
            maxWidth := newMaxWidth
            minHeight := newMinHeight
            maxHeight := newMaxHeight }
  else
    .ok { result with
            minWidth := result.width
            maxWidth := result.width
            minHeight := result.height
            maxHeight := result.height }

/-- `Settings.getSettings(userSetting)` (`Settings.ts`, lines 108-135).
The method starts from the instance's `_default` object (`state` here),
assigns the user settings into it, validates, and rewrites the min/max
bound fields.  The returned `FlipSetting` is the same object that
becomes the instance's `_default`: the instance state after a
successful call is exactly the returned value, which we model by
threading the returned value as the state of the next call. -/
def getSettings (state : FlipSetting) (u : UserSetting) :
    Except String FlipSetting :=
  validateSettings (assign state u)

/-- Example user input: fixed size, 300×400. -/
def demoFixedUser : UserSetting :=
  { size := some SizeType.FIXED, width := some 300, height := some 400 }

/-- Example user input: stretch size with no explicit bounds. -/
def demoStretchUser : UserSetting := { size := some SizeType.STRETCH }

/-- The settings produced by `getSettings` on a fresh instance for
`demoFixedUser`: the four bound fields collapse to the fixed 300×400. -/
def demoFixedResult : FlipSetting :=
  { defaultSetting with
      width := 300, height := 400
      minWidth := 300, maxWidth := 300, minHeight := 400, maxHeight := 400 }

/-- The settings produced by a second `getSettings` call with
`demoStretchUser` on the instance state left by the first call. -/
def demoStretchResult : FlipSetting :=
  { demoFixedResult with size := SizeType.STRETCH }

end Settings

namespace UI

/-- A point in widget-relative coordinates (the UI handlers convert the
client coordinates through `getMousePos`, which subtracts the bounding
rectangle's offset; positions here are the converted ones). -/
structure Point where
  x : ℚ
  y : ℚ
  deriving DecidableEq, Repr

/-- The `SwipeData` record of `UI.ts`: origin point and start time of
the current touch session. -/
structure SwipeData where
  point : Point
  time : ℚ
  deriving DecidableEq, Repr

/-- `FlipCorner` (from `Flip/Flip.ts`): which page corner a flip is
anchored to. -/
inductive FlipCorner where
  | TOP
  | BOTTOM
  deriving DecidableEq, Repr

/-- The commands the UI class dispatches to its collaborators: the
`PageFlip` app calls and the `preventDefault` call on the DOM event. -/
inductive Command where
  | startUserTouch (pos : Point)
  | userMove (pos : Point) (isTouch : Bool)
  | userStop (pos : Point) (isSwipe : Bool)
  | flipNext (corner : FlipCorner)
  | flipPrev (corner : FlipCorner)
  | preventDefault
  deriving DecidableEq, Repr

/-- The mutable state of a `UI` instance that the touch handlers use:
the `touchPoint` session slot and the `swipeDetected` resolution flag. -/
structure UIState where
  touchPoint : Option SwipeData
  swipeDetected : Bool
  deriving DecidableEq, Repr

/-- The read-only environment the handlers consult: the relevant
settings (`this.app.getSettings()`), the render rectangle
(`this.app.getRender().getRect()`), and whether the flipping state is
`READ` (`this.app.getState() === FlippingState.READ`). -/
structure Env where
  singlePage : Bool
  mobileScrollSupport : Bool
  clickEventForward : Bool
  swipeDistance : ℚ
  rectHeight : ℚ
  pageWidth : ℚ
  stateIsRead : Bool
  deriving DecidableEq, Repr

/-- The `swipeTimeout` field of `UI` (250 ms). -/
def swipeTimeout : ℚ := 250

/-- `tagName.toLowerCase()`, modelled character-wise (the tag names
compared against are ASCII). -/
def toLowerCase (s : String) : String := ⟨s.data.map Char.toLower⟩

/-- `checkTarget` (`UI.ts`): with `clickEventForward` enabled, events
whose target is an `a` or `button` element are to be ignored. -/
def checkTarget (env : Env) (tagName : String) : Bool :=
  if !env.clickEventForward then true
  else if ["a", "button"].contains (toLowerCase tagName) then false
  else true

/-- Result of the `onTouchStart` handler: the new instance state, the
dispatched commands, and — when a `setTimeout` was armed — the position
captured by the timer callback's closure. -/
structure StartResult where
  state : UIState
  cmds : List Command
  timerArmed : Option Point
  deriving DecidableEq, Repr

/-- `onTouchStart` (`UI.ts`): record a new touch session, reset the
resolution flag, and (outside single-page mode) arm the 250 ms
corner-drag timer.  `touches` is the list of changed touches. -/
def onTouchStart (env : Env) (st : UIState) (tagName : String)
    (touches : List Point) (now : ℚ) : StartResult :=
  if checkTarget env tagName then
    match touches with
    | [] => ⟨st, [], none⟩
    | pos :: _ =>
      { state := { touchPoint := some ⟨pos, now⟩, swipeDetected := false }
        cmds := if !env.mobileScrollSupport then [.preventDefault] else []
        timerArmed := if !env.singlePage then some pos else none }
  else ⟨st, [], none⟩

/-- The body of the `setTimeout` callback armed by `onTouchStart`: it
starts a corner drag only if the session is still open and unresolved
when the timer fires.  `pos` is the position captured at arm time and
`st` the instance state at fire time. -/
def timerCallback (st : UIState) (pos : Point) : List Command :=
  if st.touchPoint ≠ none ∧ !st.swipeDetected then [.startUserTouch pos] else []

/-- `onMouseDown` (`UI.ts`): start a corner drag immediately, unless the
target check rejects the event. -/
def onMouseDown (env : Env) (tagName : String) (pos : Point) : List Command :=
  if checkTarget env tagName then [.startUserTouch pos, .preventDefault] else []

/-- `onTouchMove` (`UI.ts`, lines 231-288): early swipe detection on
move, scroll suppression after resolution, and the corner-drag /
scroll-support logic otherwise.  Returns the new state and the
dispatched commands. -/
def onTouchMove (env : Env) (st : UIState) (touches : List Point)
    (cancelable : Bool) : UIState × List Command :=
  match touches with
  | [] => (st, [])
  | pos :: _ =>
    match st.touchPoint, st.swipeDetected with
    | some td, false =>
      let dx := pos.x - td.point.x
      let absDx := |dx|
      let absDy := |pos.y - td.point.y|
      if absDx ≥ env.swipeDistance ∧ absDx > absDy * (12/10) then
        let corner : FlipCorner :=
          if td.point.y < env.rectHeight / 2 then .TOP else .BOTTOM
        (⟨none, true⟩,
          (if cancelable then [.preventDefault] else []) ++
            [if dx > 0 then .flipPrev corner else .flipNext corner])
      else
        if env.mobileScrollSupport then
          (st,
            (if (|td.point.x - pos.x| > 10 ∨ !env.stateIsRead) ∧ cancelable then
              [.userMove pos true]
            else []) ++
            (if !env.stateIsRead then [.preventDefault] else []))
        else (st, [.userMove pos true])
    | _, true => (st, if cancelable then [.preventDefault] else [])
    | none, false =>
      if env.mobileScrollSupport then
        (st, if !env.stateIsRead then [.preventDefault] else [])
      else (st, [.userMove pos true])

/-- `onTouchEnd` (`UI.ts`, lines 290-350): finish a move-resolved swipe,
otherwise run the fallback swipe detection and the single-page tap-zone
logic, clear the session and report `userStop`. -/
def onTouchEnd (env : Env) (st : UIState) (touches : List Point)
    (now : ℚ) : UIState × List Command :=
  match touches with
  | [] => (st, [])
  | pos :: _ =>
    if st.swipeDetected then
      ({ st with swipeDetected := false }, [.userStop pos true])
    else
      match st.touchPoint with
      | none => (st, [.userStop pos false])
      | some td =>
        let dx := pos.x - td.point.x
        let absDx := |dx|
        let distY := |pos.y - td.point.y|
        let dt := now - td.time
        let fallbackSwipe : Bool :=
          absDx > env.swipeDistance ∧ distY < env.swipeDistance * 2 ∧
            dt < swipeTimeout
        let fallbackCmds : List Command :=
          if fallbackSwipe then
            let corner : FlipCorner :=
              if td.point.y < env.rectHeight / 2 then .TOP else .BOTTOM
            [if dx > 0 then .flipPrev corner else .flipNext corner]
          else []
        let tapZone : Bool :=
          !fallbackSwipe ∧ env.singlePage ∧ absDx < 15 ∧ distY < 15 ∧ dt < 400
        let tapCmds : List Command :=
          if tapZone then
            if pos.x < env.pageWidth * (1/4) then [.flipPrev .BOTTOM]
            else if pos.x > env.pageWidth * (3/4) then [.flipNext .BOTTOM]
            else []
          else []
        let isSwipe : Bool := fallbackSwipe ∨ (tapZone ∧ tapCmds ≠ [])
        (⟨none, st.swipeDetected⟩,
          fallbackCmds ++ tapCmds ++ [.userStop pos isSwipe])

/-- The navigation commands (`flipNext`/`flipPrev`) contained in a
command list. -/
def navCmds : List Command → List Command
  | [] => []
  | c :: cs =>
    match c with
    | .flipNext corner => Command.flipNext corner :: navCmds cs
    | .flipPrev corner => Command.flipPrev corner :: navCmds cs
    | _ => navCmds cs

end UI

namespace Helper

/-- A point on the plane (`BasicTypes.ts`), modelled over the reals. -/
@[ext]
structure Point where
  x : ℝ
  y : ℝ

/-- A rectangle (`BasicTypes.ts`). -/
structure Rect where
  left : ℝ
  top : ℝ
  width : ℝ
  height : ℝ

/-- A segment: an ordered pair of points (`BasicTypes.ts`, a type
alias). -/
abbrev Segment : Type := Helper.Point × Helper.Point

/-- `Helper.GetDistanceBetweenTwoPoint` on two present points (the
source's null-sentinel branch, which returns `Infinity`, is not needed
here: no claim involves absent points). -/
noncomputable def GetDistanceBetweenTwoPoint (point1 point2 : Point) : ℝ :=
  Real.sqrt ((point2.x - point1.x) ^ 2 + (point2.y - point1.y) ^ 2)

/-- `Helper.PointInRect`: the point unchanged if inside the closed
rectangle, else `null` (here `none`); a `null` input point yields
`null`. -/
noncomputable def PointInRect (rect : Rect) (pos : Option Point) : Option Point :=
  match pos with
  | none => none
  | some p =>
    if rect.left ≤ p.x ∧ p.x ≤ rect.width + rect.left ∧
        rect.top ≤ p.y ∧ p.y ≤ rect.top + rect.height then
      some p
    else none

/-- `Helper.LimitPointToCircle` (`Helper.ts`, lines 96-119): return the
checked point when it is within `radius` of `startPoint`, otherwise the
computed circle intersection, with the sign flip for `limitedPoint.x < 0`
and the `y = radius` overwrite when `a - n + b === 0`. -/
noncomputable def LimitPointToCircle (startPoint : Point) (radius : ℝ)
    (limitedPoint : Point) : Point :=
  if GetDistanceBetweenTwoPoint startPoint limitedPoint ≤ radius then limitedPoint
  else
    let a := startPoint.x
    let b := startPoint.y
    let n := limitedPoint.x
    let m := limitedPoint.y
    let x0 := Real.sqrt ((radius ^ 2 * (a - n) ^ 2) / ((a - n) ^ 2 + (b - m) ^ 2)) + a
    let x := if limitedPoint.x < 0 then -x0 else x0
    let y := if a - n + b = 0 then radius else ((x - a) * (b - m)) / (a - n) + b
    ⟨x, y⟩

/-- `Helper.GetIntersectBeetwenTwoLine` (`Helper.ts`, lines 143-166).
In the source, `x` and `y` are finite exactly when the denominator
`A1*B2 - A2*B1` is non-zero (otherwise the divisions produce Infinity
or NaN), so the `isFinite` test is embedded as that denominator test.
The thrown `Error('Segment included')` is an `Except.error`. -/
noncomputable def GetIntersectBeetwenTwoLine (one two : Segment) :
    Except String (Option Point) :=
  let A1 := one.1.y - one.2.y
  let A2 := two.1.y - two.2.y
  let B1 := one.2.x - one.1.x
  let B2 := two.2.x - two.1.x
  let C1 := one.1.x * one.2.y - one.2.x * one.1.y
  let C2 := two.1.x * two.2.y - two.2.x * two.1.y
  let det1 := A1 * C2 - A2 * C1
  let det2 := B1 * C2 - B2 * C1
  if A1 * B2 - A2 * B1 ≠ 0 then
    .ok (some ⟨-((C1 * B2 - C2 * B1) / (A1 * B2 - A2 * B1)),
               -((A1 * C2 - A2 * C1) / (A1 * B2 - A2 * B1))⟩)
  else if |det1 - det2| < 1/10 then .error "Segment included"
  else .ok none

/-- `Helper.GetIntersectBetweenTwoSegment`: the line intersection
clipped to the bounding rectangle; the `Segment included` error
propagates to the caller. -/
noncomputable def GetIntersectBetweenTwoSegment (rectBorder : Rect)
    (one two : Segment) : Except String (Option Point) :=
  (GetIntersectBeetwenTwoLine one two).map (PointInRect rectBorder)

/-- Membership in the infinite line spanned by a segment, in the
implicit form `A*x + B*y + C = 0` with the coefficients computed as in
`GetIntersectBeetwenTwoLine`. -/
def onLine (s : Segment) (p : Point) : Prop :=
  (s.1.y - s.2.y) * p.x + (s.2.x - s.1.x) * p.y +
    (s.1.x * s.2.y - s.2.x * s.1.y) = 0

/-- `Helper.GetCordsFromTwoPoint` (`Helper.ts`, lines 181-203): the
sampled interpolation points from `pointOne` to `pointTwo`, one sample
per pixel of the longer axis, capped at `MAX_FRAMES = 60` steps. -/
noncomputable def GetCordsFromTwoPoint (pointOne pointTwo : Point) : List Point :=
  let sizeX := |pointOne.x - pointTwo.x|
  let sizeY := |pointOne.y - pointTwo.y|
  let lengthLine := max sizeX sizeY
  if lengthLine = 0 then [pointOne]
  else
    let totalSteps : ℕ := min ⌈lengthLine⌉.toNat 60
    pointOne ::
      (List.range totalSteps).map fun (i : ℕ) =>
        let t : ℝ := ((i : ℝ) + 1) / (totalSteps : ℝ)
        ⟨pointOne.x + (pointTwo.x - pointOne.x) * t,
         pointOne.y + (pointTwo.y - pointOne.y) * t⟩

end Helper

open UI Settings Helper

/-- C1: for every open, unresolved touch session with origin `td.point`,
a touch-move to `pos` with `|dx| ≥ swipeDistance` and
`|dx| > 1.2 * |dy|` resolves the session as a swipe at that move:
the dispatched navigation commands are exactly `[flipPrev corner]` when
`dx > 0` and `[flipNext corner]` otherwise, with `corner = TOP` iff the
origin's y is below half the widget height; the session slot is cleared
and the resolved flag set, and every later move on the resolved state
dispatches no navigation command. -/
theorem c1_move_swipe_resolves_once (env : UI.Env) (st : UI.UIState)
    (td : UI.SwipeData) (pos : UI.Point) (cancelable : Bool)
    (hopen : st.touchPoint = some td) (hunres : st.swipeDetected = false)
    (hdist : |pos.x - td.point.x| ≥ env.swipeDistance)
    (hdom : |pos.x - td.point.x| > |pos.y - td.point.y| * (12/10)) :
    (UI.onTouchMove env st [pos] cancelable).1 =
        ⟨none, true⟩ ∧
    UI.navCmds (UI.onTouchMove env st [pos] cancelable).2 =
        [if pos.x - td.point.x > 0 then
            Command.flipPrev
              (if td.point.y < env.rectHeight / 2 then .TOP else .BOTTOM)
          else
            Command.flipNext
              (if td.point.y < env.rectHeight / 2 then .TOP else .BOTTOM)] ∧
    ∀ touches c₂,
      UI.navCmds (UI.onTouchMove env ⟨none, true⟩ touches c₂).2 = [] := by
  obtain ⟨tp, sd⟩ := st
  simp only [UI.UIState.touchPoint] at hopen
  simp only [UI.UIState.swipeDetected] at hunres
  subst hopen; subst hunres
  refine ⟨?_, ?_, ?_⟩
  · simp only [UI.onTouchMove, if_pos (And.intro hdist hdom)]
  · simp only [UI.onTouchMove, if_pos (And.intro hdist hdom)]
    by_cases hdx : pos.x - td.point.x > 0
    · rw [if_pos hdx]
      cases cancelable <;> simp [UI.navCmds]
    · rw [if_neg hdx]
      cases cancelable <;> simp [UI.navCmds]
  · intro touches c₂
    match touches with
    | [] => simp [UI.onTouchMove, UI.navCmds]
    | p :: ps => cases c₂ <;> simp [UI.onTouchMove, UI.navCmds]

/-- Witness for C1: the spec scenario — pointer-down at `(0, 50)` in a
`200×300` widget, move to `(40, 52)` with `swipeDistance = 30` — fires
`flipPrev TOP` exactly once, and a further move on the resolved session
fires nothing. -/
theorem c1_move_swipe_resolves_once_witness :
    (UI.onTouchMove ⟨false, true, true, 30, 300, 200, true⟩
        ⟨some ⟨⟨0, 50⟩, 0⟩, false⟩ [⟨40, 52⟩] true).1 = ⟨none, true⟩ ∧
    UI.navCmds (UI.onTouchMove ⟨false, true, true, 30, 300, 200, true⟩
        ⟨some ⟨⟨0, 50⟩, 0⟩, false⟩ [⟨40, 52⟩] true).2 =
      [Command.flipPrev .TOP] ∧
    UI.navCmds (UI.onTouchMove ⟨false, true, true, 30, 300, 200, true⟩
        ⟨none, true⟩ [⟨80, 52⟩] true).2 = [] := by
  have h := c1_move_swipe_resolves_once ⟨false, true, true, 30, 300, 200, true⟩
    ⟨some ⟨⟨0, 50⟩, 0⟩, false⟩ ⟨⟨0, 50⟩, 0⟩ ⟨40, 52⟩ true rfl rfl
    (by norm_num) (by norm_num)
  refine ⟨h.1, ?_, h.2.2 [⟨80, 52⟩] true⟩
  rw [h.2.1]
  norm_num

/-- C2: resolution is one-way and single-fire — the corner-drag timer
callback is a no-op whenever the session slot is null or the resolved
flag is set, and a resolved session's touch-end handler only clears the
flag and reports `userStop pos true`, never reaching the fallback-swipe
or tap-zone logic. -/
theorem c2_resolution_one_way :
    (∀ (st : UI.UIState) (pos : UI.Point),
      st.touchPoint = none ∨ st.swipeDetected = true →
        UI.timerCallback st pos = []) ∧
    (∀ (env : UI.Env) (st : UI.UIState) (pos : UI.Point) (now : ℚ),
      st.swipeDetected = true →
        UI.onTouchEnd env st [pos] now =
          ({ st with swipeDetected := false }, [Command.userStop pos true])) := by
  constructor
  · intro st pos h
    rcases h with h | h <;> simp [UI.timerCallback, h]
  · intro env st pos now h
    simp [UI.onTouchEnd, h]

/-- Witness for C2: a fired timer on a resolved session does nothing,
and touch-end on a resolved session reports exactly
`userStop pos true`. -/
theorem c2_resolution_one_way_witness :
    UI.timerCallback ⟨some ⟨⟨0, 0⟩, 0⟩, true⟩ ⟨0, 0⟩ = [] ∧
    UI.onTouchEnd ⟨false, true, true, 30, 300, 200, true⟩
        ⟨some ⟨⟨0, 0⟩, 0⟩, true⟩ [⟨40, 5⟩] 100 =
      (⟨some ⟨⟨0, 0⟩, 0⟩, false⟩, [Command.userStop ⟨40, 5⟩ true]) :=
  ⟨c2_resolution_one_way.1 ⟨some ⟨⟨0, 0⟩, 0⟩, true⟩ ⟨0, 0⟩ (Or.inr rfl),
   c2_resolution_one_way.2 ⟨false, true, true, 30, 300, 200, true⟩
     ⟨some ⟨⟨0, 0⟩, 0⟩, true⟩ ⟨40, 5⟩ 100 rfl⟩

/-- C5: at touch-end of an open, unresolved session, if
`|dx| > swipeDistance`, the vertical displacement is
`< 2 * swipeDistance` and the elapsed time is `< 250`, the gesture is a
swipe with the same corner rule (origin y versus half the widget
height) and direction rule (`dx > 0` → `flipPrev`, else `flipNext`) as
the move-based detector, and `userStop` is reported with
`wasSwipe = true`. -/
theorem c5_touch_end_fallback_swipe (env : UI.Env) (st : UI.UIState)
    (td : UI.SwipeData) (pos : UI.Point) (now : ℚ)
    (hopen : st.touchPoint = some td) (hunres : st.swipeDetected = false)
    (hdx : |pos.x - td.point.x| > env.swipeDistance)
    (hdy : |pos.y - td.point.y| < env.swipeDistance * 2)
    (hdt : now - td.time < UI.swipeTimeout) :
    UI.onTouchEnd env st [pos] now =
      (⟨none, false⟩,
        [if pos.x - td.point.x > 0 then
            Command.flipPrev
              (if td.point.y < env.rectHeight / 2 then .TOP else .BOTTOM)
          else
            Command.flipNext
              (if td.point.y < env.rectHeight / 2 then .TOP else .BOTTOM),
         Command.userStop pos true]) := by
  obtain ⟨tp, sd⟩ := st
  simp only [UI.UIState.touchPoint] at hopen
  simp only [UI.UIState.swipeDetected] at hunres
  subst hopen; subst hunres
  simp [UI.onTouchEnd, hdx, hdy, hdt]

/-- Witness for C5: a fast leftward drag of 40 px ending after 100 ms
below the vertical midpoint fires `flipNext BOTTOM` and stops with
`wasSwipe = true`. -/
theorem c5_touch_end_fallback_swipe_witness :
    UI.onTouchEnd ⟨false, true, true, 30, 300, 200, true⟩
        ⟨some ⟨⟨100, 200⟩, 0⟩, false⟩ [⟨60, 210⟩] 100 =
      (⟨none, false⟩,
        [Command.flipNext .BOTTOM, Command.userStop ⟨60, 210⟩ true]) := by
  have h := c5_touch_end_fallback_swipe ⟨false, true, true, 30, 300, 200, true⟩
    ⟨some ⟨⟨100, 200⟩, 0⟩, false⟩ ⟨⟨100, 200⟩, 0⟩ ⟨60, 210⟩ 100 rfl rfl
    (by norm_num) (by norm_num) (by norm_num [UI.swipeTimeout])
  rw [h]
  norm_num

/-- C4: in single-page mode, when a touch session ends unresolved and
not classified as a fallback swipe, with both displacements `< 15` and
elapsed time `< 400`: an end x strictly left of a quarter of the page
width fires `flipPrev BOTTOM` once, strictly right of three quarters
fires `flipNext BOTTOM` once, and in the middle — boundaries included —
no navigation command is dispatched (`userStop pos false` only). -/
theorem c4_single_page_tap_zones (env : UI.Env) (st : UI.UIState)
    (td : UI.SwipeData) (pos : UI.Point) (now : ℚ)
    (hopen : st.touchPoint = some td) (hunres : st.swipeDetected = false)
    (hsp : env.singlePage = true) (hpw : 0 ≤ env.pageWidth)
    (hnofb : ¬(|pos.x - td.point.x| > env.swipeDistance ∧
        |pos.y - td.point.y| < env.swipeDistance * 2 ∧
        now - td.time < UI.swipeTimeout))
    (hdx : |pos.x - td.point.x| < 15) (hdy : |pos.y - td.point.y| < 15)
    (hdt : now - td.time < 400) :
    (pos.x < env.pageWidth * (1/4) →
      UI.onTouchEnd env st [pos] now =
        (⟨none, false⟩, [Command.flipPrev .BOTTOM, Command.userStop pos true])) ∧
    (pos.x > env.pageWidth * (3/4) →
      UI.onTouchEnd env st [pos] now =
        (⟨none, false⟩, [Command.flipNext .BOTTOM, Command.userStop pos true])) ∧
    (env.pageWidth * (1/4) ≤ pos.x → pos.x ≤ env.pageWidth * (3/4) →
      UI.onTouchEnd env st [pos] now =
        (⟨none, false⟩, [Command.userStop pos false])) := by
  obtain ⟨tp, sd⟩ := st
  simp only [UI.UIState.touchPoint] at hopen
  simp only [UI.UIState.swipeDetected] at hunres
  subst hopen; subst hunres
  refine ⟨?_, ?_, ?_⟩
  · intro hleft
    rw [one_div] at hleft
    simp [UI.onTouchEnd, hnofb, hsp, hdx, hdy, hdt, hleft]
  · intro hright
    have hnotleft : ¬pos.x < env.pageWidth * 4⁻¹ := by
      intro h
      have hq : env.pageWidth * 4⁻¹ ≤ env.pageWidth * (3/4) := by nlinarith
      linarith
    simp [UI.onTouchEnd, hnofb, hsp, hdx, hdy, hdt, hnotleft, hright]
  · intro hge hle
    rw [one_div] at hge
    have hnotleft : ¬pos.x < env.pageWidth * 4⁻¹ := not_lt.mpr hge
    have hnotright : ¬pos.x > env.pageWidth * (3/4) := not_lt.mpr hle
    simp [UI.onTouchEnd, hnofb, hsp, hdx, hdy, hdt, hnotleft, hnotright]

/-- Witness for C4: the spec scenarios — a tap at `(10, 10)` within
400 ms on a page of width 300 fires `flipPrev BOTTOM` once, and a tap
at `(150, 10)` (middle zone) dispatches no navigation. -/
theorem c4_single_page_tap_zones_witness :
    UI.onTouchEnd ⟨true, true, true, 30, 400, 300, true⟩
        ⟨some ⟨⟨10, 10⟩, 0⟩, false⟩ [⟨10, 10⟩] 100 =
      (⟨none, false⟩, [Command.flipPrev .BOTTOM, Command.userStop ⟨10, 10⟩ true]) ∧
    UI.onTouchEnd ⟨true, true, true, 30, 400, 300, true⟩
        ⟨some ⟨⟨150, 10⟩, 0⟩, false⟩ [⟨150, 10⟩] 100 =
      (⟨none, false⟩, [Command.userStop ⟨150, 10⟩ false]) := by
  constructor
  · exact (c4_single_page_tap_zones ⟨true, true, true, 30, 400, 300, true⟩
      ⟨some ⟨⟨10, 10⟩, 0⟩, false⟩ ⟨⟨10, 10⟩, 0⟩ ⟨10, 10⟩ 100 rfl rfl rfl
      (by norm_num) (by norm_num) (by norm_num) (by norm_num)
      (by norm_num)).1 (by norm_num)
  · exact (c4_single_page_tap_zones ⟨true, true, true, 30, 400, 300, true⟩
      ⟨some ⟨⟨150, 10⟩, 0⟩, false⟩ ⟨⟨150, 10⟩, 0⟩ ⟨150, 10⟩ 100 rfl rfl rfl
      (by norm_num) (by norm_num) (by norm_num) (by norm_num)
      (by norm_num)).2.2 (by norm_num) (by norm_num)

/-- C9: with `clickEventForward` enabled and a pointer-down whose
target is an anchor or button element, the handlers ignore the event
entirely: the touch channel creates no session, dispatches nothing and
arms no timer, and the mouse channel dispatches nothing (in particular
`startUserTouch` is never called). -/
theorem c9_click_forward_ignores_interactive (env : UI.Env)
    (st : UI.UIState) (tagName : String) (touches : List UI.Point)
    (now : ℚ) (pos : UI.Point)
    (hfwd : env.clickEventForward = true)
    (htag : UI.toLowerCase tagName = "a" ∨ UI.toLowerCase tagName = "button") :
    UI.onTouchStart env st tagName touches now = ⟨st, [], none⟩ ∧
    UI.onMouseDown env tagName pos = [] := by
  have hct : UI.checkTarget env tagName = false := by
    rcases htag with h | h <;> simp [UI.checkTarget, hfwd, h]
  constructor
  · simp [UI.onTouchStart, hct]
  · simp [UI.onMouseDown, hct]

/-- Witness for C9: a pointer-down on an `A` (anchor) element with
forwarding enabled is a no-op on both channels. -/
theorem c9_click_forward_ignores_interactive_witness :
    UI.onTouchStart ⟨false, true, true, 30, 300, 200, true⟩
        ⟨none, false⟩ "A" [⟨5, 5⟩] 0 = ⟨⟨none, false⟩, [], none⟩ ∧
    UI.onMouseDown ⟨false, true, true, 30, 300, 200, true⟩ "A" ⟨5, 5⟩ = [] :=
  c9_click_forward_ignores_interactive ⟨false, true, true, 30, 300, 200, true⟩
    ⟨none, false⟩ "A" [⟨5, 5⟩] 0 ⟨5, 5⟩ rfl (Or.inl (by decide))

/-- C7: `getSettings` on a fresh instance throws the descriptive errors
for an invalid size mode, non-positive width or height, and
non-positive flipping time; on success, stretch mode replaces
`minWidth ≤ 0` by 100, `maxWidth` below the (replaced) `minWidth` by
2000, and likewise for the heights, while fixed mode collapses all four
bounds to the width and height. -/
theorem c7_getSettings_validates (u : Settings.UserSetting)
    (a : Settings.FlipSetting)
    (ha : a = Settings.assign Settings.defaultSetting u) :
    (a.size ≠ SizeType.FIXED → a.size ≠ SizeType.STRETCH →
      Settings.getSettings Settings.defaultSetting u =
        .error "Invalid size type. Available only \x22fixed\x22 and \x22stretch\x22 value") ∧
    ((a.size = SizeType.FIXED ∨ a.size = SizeType.STRETCH) →
      a.width ≤ 0 ∨ a.height ≤ 0 →
      Settings.getSettings Settings.defaultSetting u =
        .error "Invalid width or height") ∧
    ((a.size = SizeType.FIXED ∨ a.size = SizeType.STRETCH) →
      0 < a.width → 0 < a.height → a.flippingTime ≤ 0 →
      Settings.getSettings Settings.defaultSetting u =
        .error "Invalid flipping time") ∧
    (a.size = SizeType.STRETCH →
      0 < a.width → 0 < a.height → 0 < a.flippingTime →
      Settings.getSettings Settings.defaultSetting u =
        .ok { a with
                minWidth := if a.minWidth ≤ 0 then 100 else a.minWidth
                maxWidth :=
                  if a.maxWidth < (if a.minWidth ≤ 0 then 100 else a.minWidth)
                  then 2000 else a.maxWidth
                minHeight := if a.minHeight ≤ 0 then 100 else a.minHeight
                maxHeight :=
                  if a.maxHeight < (if a.minHeight ≤ 0 then 100 else a.minHeight)
                  then 2000 else a.maxHeight }) ∧
    (a.size = SizeType.FIXED →
      0 < a.width → 0 < a.height → 0 < a.flippingTime →
      Settings.getSettings Settings.defaultSetting u =
        .ok { a with
                minWidth := a.width, maxWidth := a.width
                minHeight := a.height, maxHeight := a.height }) := by
  have hgs : Settings.getSettings Settings.defaultSetting u =
      Settings.validateSettings a := by
    simp only [Settings.getSettings, ha]
  refine ⟨?_, ?_, ?_, ?_, ?_⟩
  · intro h1 h2
    rw [hgs]
    simp only [Settings.validateSettings]
    rw [if_pos ⟨h2, h1⟩]
  · intro hvalid hdim
    rw [hgs]
    simp only [Settings.validateSettings]
    rw [if_neg (by tauto), if_pos hdim]
  · intro hvalid hw hh hft
    rw [hgs]
    simp only [Settings.validateSettings]
    rw [if_neg (by tauto), if_neg (by push_neg; exact ⟨hw, hh⟩), if_pos hft]
  · intro hstr hw hh hft
    rw [hgs]
    simp only [Settings.validateSettings]
    rw [if_neg (by tauto), if_neg (by push_neg; exact ⟨hw, hh⟩),
      if_neg (not_le.mpr hft), if_pos hstr]
  · intro hfix hw hh hft
    have hne : Settings.SizeType.FIXED ≠ Settings.SizeType.STRETCH := by decide
    rw [hgs]
    simp only [Settings.validateSettings]
    rw [if_neg (by tauto), if_neg (by push_neg; exact ⟨hw, hh⟩),
      if_neg (not_le.mpr hft), if_neg (by rw [hfix]; exact hne)]

/-- Witness for C7: `{width: 0, height: 100}` fails with the dimension
error, a stretch input with no `minWidth` normalizes `minWidth` to 100,
and an unknown size string fails with the size error. -/
theorem c7_getSettings_validates_witness :
    Settings.getSettings Settings.defaultSetting
        { width := some 0, height := some 100 } =
      .error "Invalid width or height" ∧
    (∃ r, Settings.getSettings Settings.defaultSetting
        { size := some Settings.SizeType.STRETCH,
          width := some 300, height := some 400 } = .ok r ∧
      r.minWidth = 100) ∧
    Settings.getSettings Settings.defaultSetting { size := some "single" } =
      .error "Invalid size type. Available only \x22fixed\x22 and \x22stretch\x22 value" := by
  refine ⟨?_, ?_, ?_⟩
  · exact (c7_getSettings_validates { width := some 0, height := some 100 }
      _ rfl).2.1 (Or.inl (by decide)) (Or.inl (by decide))
  · refine ⟨_, (c7_getSettings_validates
      { size := some Settings.SizeType.STRETCH,
        width := some 300, height := some 400 } _ rfl).2.2.2.1
      (by decide) (by decide) (by decide) (by decide), by decide⟩
  · exact (c7_getSettings_validates { size := some "single" } _ rfl).1
      (by decide) (by decide)

/-- `getSettings` never rewrites the `width` field after the assign
step: a successful call returns the merged width unchanged. -/
theorem getSettings_width_eq (s : Settings.FlipSetting)
    (u : Settings.UserSetting) (r : Settings.FlipSetting)
    (h : Settings.getSettings s u = .ok r) :
    r.width = (Settings.assign s u).width := by
  simp only [Settings.getSettings, Settings.validateSettings] at h
  split_ifs at h <;> simp only [Except.ok.injEq] at h <;> subst h <;> rfl

/-- C10: `getSettings` assigns the user settings into the instance's
own `_default` object and returns that object, so the instance state of
the next call is the previous call's result: a key present in `u1` and
absent from `u2` keeps `u1`'s value in the second result, and values
rewritten by the first call's validation — such as the fixed-mode bound
collapse — persist as the second call's baseline instead of the
documented defaults (a fresh stretch call would yield `minWidth = 100`,
the chained one keeps 300). -/
theorem c10_getSettings_mutates_instance_state :
    (∀ (s r1 r2 : Settings.FlipSetting) (u1 u2 : Settings.UserSetting) (w : ℚ),
      u1.width = some w → u2.width = none →
      Settings.getSettings s u1 = .ok r1 →
      Settings.getSettings r1 u2 = .ok r2 →
      r1.width = w ∧ r2.width = w) ∧
    Settings.getSettings Settings.defaultSetting Settings.demoFixedUser =
      .ok Settings.demoFixedResult ∧
    Settings.demoFixedResult.minWidth = 300 ∧
    Settings.demoStretchUser.minWidth = none ∧
    Settings.getSettings Settings.demoFixedResult Settings.demoStretchUser =
      .ok Settings.demoStretchResult ∧
    Settings.demoStretchResult.minWidth = 300 ∧
    Settings.demoStretchResult.width = 300 := by
  refine ⟨?_, by rfl, by decide, by decide, by rfl, by decide, by decide⟩
  intro s r1 r2 u1 u2 w hw1 hw2 h1 h2
  have e1 : r1.width = (Settings.assign s u1).width := getSettings_width_eq s u1 r1 h1
  have e2 : r2.width = (Settings.assign r1 u2).width := getSettings_width_eq r1 u2 r2 h2
  have hr1 : r1.width = w := by rw [e1]; simp [Settings.assign, hw1]
  refine ⟨hr1, ?_⟩
  rw [e2]
  simp [Settings.assign, hw2, hr1]

/-- Witness for C10: the two-call scenario — `fixed 300×400`, then
`stretch` with no explicit width — retains width 300 in the second
result. -/
theorem c10_getSettings_mutates_instance_state_witness :
    Settings.demoFixedResult.width = 300 ∧
    Settings.demoStretchResult.width = 300 :=
  c10_getSettings_mutates_instance_state.1 Settings.defaultSetting
    Settings.demoFixedResult Settings.demoStretchResult
    Settings.demoFixedUser Settings.demoStretchUser 300
    rfl rfl (by rfl) (by rfl)

/-- C6: `GetIntersectBeetwenTwoLine` returns the intersection point of
the two infinite lines when its coordinates are finite (non-zero
denominator `A1*B2 - A2*B1`); otherwise it throws `Segment included`
iff `|det1 - det2| < 0.1` and returns `null` otherwise; and
`GetIntersectBetweenTwoSegment` filters the computed point through
`PointInRect` (so a point outside the bounding rectangle becomes
`null`) and propagates the error. -/
theorem c6_line_intersection (one two : Helper.Segment) :
    ((one.1.y - one.2.y) * (two.2.x - two.1.x) -
        (two.1.y - two.2.y) * (one.2.x - one.1.x) ≠ 0 →
      ∃ p, Helper.GetIntersectBeetwenTwoLine one two = .ok (some p) ∧
        Helper.onLine one p ∧ Helper.onLine two p) ∧
    ((one.1.y - one.2.y) * (two.2.x - two.1.x) -
        (two.1.y - two.2.y) * (one.2.x - one.1.x) = 0 →
      (|((one.1.y - one.2.y) * (two.1.x * two.2.y - two.2.x * two.1.y) -
          (two.1.y - two.2.y) * (one.1.x * one.2.y - one.2.x * one.1.y)) -
         ((one.2.x - one.1.x) * (two.1.x * two.2.y - two.2.x * two.1.y) -
          (two.2.x - two.1.x) * (one.1.x * one.2.y - one.2.x * one.1.y))| < 1/10 →
        Helper.GetIntersectBeetwenTwoLine one two = .error "Segment included") ∧
      (¬|((one.1.y - one.2.y) * (two.1.x * two.2.y - two.2.x * two.1.y) -
          (two.1.y - two.2.y) * (one.1.x * one.2.y - one.2.x * one.1.y)) -
         ((one.2.x - one.1.x) * (two.1.x * two.2.y - two.2.x * two.1.y) -
          (two.2.x - two.1.x) * (one.1.x * one.2.y - one.2.x * one.1.y))| < 1/10 →
        Helper.GetIntersectBeetwenTwoLine one two = .ok none)) ∧
    (∀ (rect : Helper.Rect) (p : Helper.Point),
      Helper.GetIntersectBeetwenTwoLine one two = .ok (some p) →
        Helper.GetIntersectBetweenTwoSegment rect one two =
          .ok (Helper.PointInRect rect (some p))) ∧
    (∀ (rect : Helper.Rect) (msg : String),
      Helper.GetIntersectBeetwenTwoLine one two = .error msg →
        Helper.GetIntersectBetweenTwoSegment rect one two = .error msg) := by
  refine ⟨?_, ?_, ?_, ?_⟩
  · intro h
    simp only [Helper.GetIntersectBeetwenTwoLine]
    rw [if_pos h]
    refine ⟨_, rfl, ?_, ?_⟩ <;>
      simp only [Helper.onLine] <;> field_simp <;> ring
  · intro h
    constructor
    · intro hdet
      simp only [Helper.GetIntersectBeetwenTwoLine]
      rw [if_neg (by simpa using h), if_pos hdet]
    · intro hdet
      simp only [Helper.GetIntersectBeetwenTwoLine]
      rw [if_neg (by simpa using h), if_neg hdet]
  · intro rect p h
    simp only [Helper.GetIntersectBetweenTwoSegment, h, Except.map]
  · intro rect msg h
    simp only [Helper.GetIntersectBetweenTwoSegment, h, Except.map]

/-- Witness for C6: the diagonals of the unit square of side 2 meet at
`(1, 1)` on both lines; two coincident horizontal segments throw
`Segment included`; two parallel distinct horizontals yield `null`; and
clipping the diagonal intersection to a far-away rectangle yields
`null`. -/
theorem c6_line_intersection_witness :
    (∃ p, Helper.GetIntersectBeetwenTwoLine
        (⟨⟨0, 0⟩, ⟨2, 2⟩⟩ : Helper.Segment) ⟨⟨0, 2⟩, ⟨2, 0⟩⟩ = .ok (some p) ∧
      Helper.onLine ⟨⟨0, 0⟩, ⟨2, 2⟩⟩ p ∧ Helper.onLine ⟨⟨0, 2⟩, ⟨2, 0⟩⟩ p) ∧
    Helper.GetIntersectBeetwenTwoLine
        (⟨⟨0, 0⟩, ⟨1, 0⟩⟩ : Helper.Segment) ⟨⟨2, 0⟩, ⟨3, 0⟩⟩ =
      .error "Segment included" ∧
    Helper.GetIntersectBeetwenTwoLine
        (⟨⟨0, 0⟩, ⟨1, 0⟩⟩ : Helper.Segment) ⟨⟨0, 1⟩, ⟨1, 1⟩⟩ = .ok none ∧
    Helper.GetIntersectBetweenTwoSegment ⟨5, 5, 1, 1⟩
        (⟨⟨0, 0⟩, ⟨2, 2⟩⟩ : Helper.Segment) ⟨⟨0, 2⟩, ⟨2, 0⟩⟩ = .ok none := by
  have hpt : Helper.GetIntersectBeetwenTwoLine
      (⟨⟨0, 0⟩, ⟨2, 2⟩⟩ : Helper.Segment) ⟨⟨0, 2⟩, ⟨2, 0⟩⟩ =
        .ok (some ⟨1, 1⟩) := by
    simp only [Helper.GetIntersectBeetwenTwoLine]
    rw [if_pos (by norm_num)]
    norm_num
  refine ⟨?_, ?_, ?_, ?_⟩
  · exact (c6_line_intersection ⟨⟨0, 0⟩, ⟨2, 2⟩⟩ ⟨⟨0, 2⟩, ⟨2, 0⟩⟩).1 (by norm_num)
  · exact ((c6_line_intersection ⟨⟨0, 0⟩, ⟨1, 0⟩⟩ ⟨⟨2, 0⟩, ⟨3, 0⟩⟩).2.1
      (by norm_num)).1 (by norm_num)
  · exact ((c6_line_intersection ⟨⟨0, 0⟩, ⟨1, 0⟩⟩ ⟨⟨0, 1⟩, ⟨1, 1⟩⟩).2.1
      (by norm_num)).2 (by norm_num)
  · have h := (c6_line_intersection ⟨⟨0, 0⟩, ⟨2, 2⟩⟩ ⟨⟨0, 2⟩, ⟨2, 0⟩⟩).2.2.1
      ⟨5, 5, 1, 1⟩ ⟨1, 1⟩ hpt
    rw [h]
    simp only [Helper.PointInRect]
    norm_num

/-- C8: `GetCordsFromTwoPoint a b` always starts with `a`; when the
longer axis `max |Δx| |Δy|` is positive the length is
`min ⌈max |Δx| |Δy|⌉ 60 + 1` and element `i` is the even interpolation
`a + (b - a) * (i / totalSteps)`; when the points coincide the result
is `[a]`. -/
theorem c8_cords_sampling (pointOne pointTwo : Helper.Point) :
    (Helper.GetCordsFromTwoPoint pointOne pointTwo).head? = some pointOne ∧
    (0 < max |pointOne.x - pointTwo.x| |pointOne.y - pointTwo.y| →
      (Helper.GetCordsFromTwoPoint pointOne pointTwo).length =
        min ⌈max |pointOne.x - pointTwo.x| |pointOne.y - pointTwo.y|⌉.toNat 60
          + 1 ∧
      Helper.GetCordsFromTwoPoint pointOne pointTwo =
        (List.range (min ⌈max |pointOne.x - pointTwo.x|
            |pointOne.y - pointTwo.y|⌉.toNat 60 + 1)).map fun (i : ℕ) =>
          ⟨pointOne.x + (pointTwo.x - pointOne.x) * ((i : ℝ) /
              (min ⌈max |pointOne.x - pointTwo.x|
                  |pointOne.y - pointTwo.y|⌉.toNat 60 : ℕ)),
           pointOne.y + (pointTwo.y - pointOne.y) * ((i : ℝ) /
              (min ⌈max |pointOne.x - pointTwo.x|
                  |pointOne.y - pointTwo.y|⌉.toNat 60 : ℕ))⟩) ∧
    (pointOne = pointTwo →
      Helper.GetCordsFromTwoPoint pointOne pointTwo = [pointOne]) := by
  refine ⟨?_, ?_, ?_⟩
  · simp only [Helper.GetCordsFromTwoPoint]
    split <;> rfl
  · intro hpos
    have hne : max |pointOne.x - pointTwo.x| |pointOne.y - pointTwo.y| ≠ 0 :=
      ne_of_gt hpos
    constructor
    · simp only [Helper.GetCordsFromTwoPoint]
      rw [if_neg hne]
      simp
    · simp only [Helper.GetCordsFromTwoPoint]
      rw [if_neg hne, List.range_succ_eq_map, List.map_cons, List.map_map]
      congr 1
      · ext <;> simp
      · congr 1
        funext i
        simp only [Function.comp_apply, Helper.Point.mk.injEq]
        constructor <;> (push_cast; ring)
  · intro h
    subst h
    simp [Helper.GetCordsFromTwoPoint]

/-- Witness for C8: from `(0,0)` to `(3,4)` the longer axis is 4, so
the list has `min 4 60 + 1 = 5` points: the even samples from the
origin to `(3,4)`; the degenerate call yields the singleton. -/
theorem c8_cords_sampling_witness :
    (Helper.GetCordsFromTwoPoint ⟨0, 0⟩ ⟨3, 4⟩).head? = some ⟨0, 0⟩ ∧
    (Helper.GetCordsFromTwoPoint ⟨0, 0⟩ ⟨3, 4⟩).length = 5 ∧
    Helper.GetCordsFromTwoPoint ⟨0, 0⟩ ⟨3, 4⟩ =
      [⟨0, 0⟩, ⟨3/4, 1⟩, ⟨3/2, 2⟩, ⟨9/4, 3⟩, ⟨3, 4⟩] ∧
    Helper.GetCordsFromTwoPoint ⟨1, 1⟩ ⟨1, 1⟩ = [⟨1, 1⟩] := by
  have hc := c8_cords_sampling ⟨0, 0⟩ ⟨3, 4⟩
  dsimp only at hc
  have hpos : (0 : ℝ) < max |(0 : ℝ) - 3| |(0 : ℝ) - 4| := by norm_num
  obtain ⟨hhead, himp, -⟩ := hc
  obtain ⟨hlen, hlist⟩ := himp hpos
  have hceil : ⌈(4 : ℝ)⌉ = 4 := by norm_num
  have hm4 : ⌈max |(0 : ℝ) - 3| |(0 : ℝ) - 4|⌉.toNat = 4 := by
    rw [show max |(0 : ℝ) - 3| |(0 : ℝ) - 4| = 4 by norm_num, hceil]
    rfl
  refine ⟨hhead, ?_, ?_, c8_cords_sampling ⟨1, 1⟩ ⟨1, 1⟩ |>.2.2 rfl⟩
  · rw [hlen, hm4]
    rfl
  · rw [hlist, hm4, show min (4 : ℕ) 60 = 4 from rfl]
    norm_num [List.range_succ, Helper.Point.mk.injEq]

/-- Evaluation helper: the distance between two points is `d` when the
sum of squared differences is `d ^ 2` and `0 ≤ d`. -/
theorem GetDistanceBetweenTwoPoint_eval (p q : Helper.Point) (d : ℝ)
    (hd : 0 ≤ d) (h : (q.x - p.x) ^ 2 + (q.y - p.y) ^ 2 = d ^ 2) :
    Helper.GetDistanceBetweenTwoPoint p q = d := by
  simp only [Helper.GetDistanceBetweenTwoPoint]
  rw [h, Real.sqrt_sq hd]

/-- Counterexample for C3: with center `(2,3)`, radius 1 and point
`(5,3)` the checked point is outside the circle and the denominator
`c.x - p.x = -3` is non-zero, yet the code's fallback `y = radius`
fires (its actual condition is `c.x - p.x + c.y = 0`) and the returned
point `(3,1)` is at distance `√5 ≠ 1` from the center; the sign flip
for `p.x < 0` (center `(1,0)`, point `(-1,0)`) also returns a point at
distance `3 ≠ 1`. -/
theorem c3_limit_point_to_circle_counterexample :
    1 < Helper.GetDistanceBetweenTwoPoint ⟨2, 3⟩ ⟨5, 3⟩ ∧
    (⟨2, 3⟩ : Helper.Point).x - (⟨5, 3⟩ : Helper.Point).x ≠ 0 ∧
    Helper.LimitPointToCircle ⟨2, 3⟩ 1 ⟨5, 3⟩ = ⟨3, 1⟩ ∧
    Helper.GetDistanceBetweenTwoPoint ⟨2, 3⟩
      (Helper.LimitPointToCircle ⟨2, 3⟩ 1 ⟨5, 3⟩) ≠ 1 ∧
    1 < Helper.GetDistanceBetweenTwoPoint ⟨1, 0⟩ ⟨-1, 0⟩ ∧
    Helper.GetDistanceBetweenTwoPoint ⟨1, 0⟩
      (Helper.LimitPointToCircle ⟨1, 0⟩ 1 ⟨-1, 0⟩) ≠ 1 := by
  have hd1 : Helper.GetDistanceBetweenTwoPoint ⟨2, 3⟩ ⟨5, 3⟩ = 3 :=
    GetDistanceBetweenTwoPoint_eval _ _ 3 (by norm_num) (by norm_num)
  have hlim1 : Helper.LimitPointToCircle ⟨2, 3⟩ 1 ⟨5, 3⟩ = ⟨3, 1⟩ := by
    simp only [Helper.LimitPointToCircle]
    rw [if_neg (by rw [hd1]; norm_num), if_neg (by norm_num), if_pos (by norm_num)]
    ext
    · show Real.sqrt _ + _ = _
      rw [show ((1 : ℝ) ^ 2 * ((⟨2, 3⟩ : Helper.Point).x - (⟨5, 3⟩ : Helper.Point).x) ^ 2) /
          (((⟨2, 3⟩ : Helper.Point).x - (⟨5, 3⟩ : Helper.Point).x) ^ 2 +
            ((⟨2, 3⟩ : Helper.Point).y - (⟨5, 3⟩ : Helper.Point).y) ^ 2) = 1 by norm_num,
        Real.sqrt_one]
      norm_num
    · rfl
  have hd2 : Helper.GetDistanceBetweenTwoPoint ⟨2, 3⟩ (⟨3, 1⟩ : Helper.Point) =
      Real.sqrt 5 := by
    simp only [Helper.GetDistanceBetweenTwoPoint]
    norm_num
  have hd3 : Helper.GetDistanceBetweenTwoPoint ⟨1, 0⟩ (⟨-1, 0⟩ : Helper.Point) = 2 :=
    GetDistanceBetweenTwoPoint_eval _ _ 2 (by norm_num) (by norm_num)
  have hlim2 : Helper.LimitPointToCircle ⟨1, 0⟩ 1 ⟨-1, 0⟩ = ⟨-2, 0⟩ := by
    simp only [Helper.LimitPointToCircle]
    rw [if_neg (by rw [hd3]; norm_num), if_pos (by norm_num), if_neg (by norm_num)]
    ext
    · show -(Real.sqrt _ + _) = _
      rw [show ((1 : ℝ) ^ 2 * ((⟨1, 0⟩ : Helper.Point).x - (⟨-1, 0⟩ : Helper.Point).x) ^ 2) /
          (((⟨1, 0⟩ : Helper.Point).x - (⟨-1, 0⟩ : Helper.Point).x) ^ 2 +
            ((⟨1, 0⟩ : Helper.Point).y - (⟨-1, 0⟩ : Helper.Point).y) ^ 2) = 1 by norm_num,
        Real.sqrt_one]
      norm_num
    · show _ * _ / _ + _ = _
      norm_num
  have hd4 : Helper.GetDistanceBetweenTwoPoint ⟨1, 0⟩ (⟨-2, 0⟩ : Helper.Point) = 3 :=
    GetDistanceBetweenTwoPoint_eval _ _ 3 (by norm_num) (by norm_num)
  refine ⟨by rw [hd1]; norm_num, by norm_num, hlim1, ?_, by rw [hd3]; norm_num, ?_⟩
  · rw [hlim1, hd2]
    intro h
    have h2 := Real.sq_sqrt (show (0 : ℝ) ≤ 5 by norm_num)
    rw [h] at h2
    norm_num at h2
  · rw [hlim2, hd4]
    norm_num

/-- C3 (amended): `LimitPointToCircle c r p` returns `p` unchanged
whenever `distance(c, p) ≤ r`; when `distance(c, p) > r` the returned
point lies at distance `r` from `c` provided `0 ≤ p.x`, `c.x ≠ p.x`
and `c.x - p.x + c.y ≠ 0`; and the `y = radius` fallback fires exactly
when `c.x - p.x + c.y = 0` (the code's condition `a - n + b === 0`),
not when the denominator `c.x - p.x` is zero. -/
theorem c3_limit_point_to_circle_amended (c : Helper.Point) (r : ℝ)
    (p : Helper.Point) :
    (Helper.GetDistanceBetweenTwoPoint c p ≤ r →
      Helper.LimitPointToCircle c r p = p) ∧
    (0 ≤ r → r < Helper.GetDistanceBetweenTwoPoint c p →
      0 ≤ p.x → c.x ≠ p.x → c.x - p.x + c.y ≠ 0 →
      Helper.GetDistanceBetweenTwoPoint c (Helper.LimitPointToCircle c r p) = r) ∧
    (r < Helper.GetDistanceBetweenTwoPoint c p → c.x - p.x + c.y = 0 →
      (Helper.LimitPointToCircle c r p).y = r) := by
  refine ⟨?_, ?_, ?_⟩
  · intro h
    simp only [Helper.LimitPointToCircle]
    rw [if_pos h]
  · intro hr hgt hpx hax hfb
    have hane : c.x - p.x ≠ 0 := sub_ne_zero.mpr hax
    have hD : 0 < (c.x - p.x) ^ 2 + (c.y - p.y) ^ 2 := by
      have h1 : 0 < (c.x - p.x) ^ 2 :=
        lt_of_le_of_ne (sq_nonneg _) (Ne.symm (pow_ne_zero 2 hane))
      nlinarith [sq_nonneg (c.y - p.y)]
    set s := Real.sqrt ((r ^ 2 * (c.x - p.x) ^ 2) /
      ((c.x - p.x) ^ 2 + (c.y - p.y) ^ 2)) with hs_def
    have hs_sq : s ^ 2 = r ^ 2 * (c.x - p.x) ^ 2 /
        ((c.x - p.x) ^ 2 + (c.y - p.y) ^ 2) :=
      Real.sq_sqrt (by positivity)
    have hq : Helper.LimitPointToCircle c r p =
        ⟨s + c.x, (s + c.x - c.x) * (c.y - p.y) / (c.x - p.x) + c.y⟩ := by
      simp only [Helper.LimitPointToCircle]
      rw [if_neg (not_le.mpr hgt), if_neg (not_lt.mpr hpx), if_neg hfb]
    rw [hq]
    simp only [Helper.GetDistanceBetweenTwoPoint]
    have key : (s + c.x - c.x) ^ 2 +
        ((s + c.x - c.x) * (c.y - p.y) / (c.x - p.x) + c.y - c.y) ^ 2 = r ^ 2 := by
      have expand : (s + c.x - c.x) ^ 2 +
          ((s + c.x - c.x) * (c.y - p.y) / (c.x - p.x) + c.y - c.y) ^ 2 =
            s ^ 2 * ((c.x - p.x) ^ 2 + (c.y - p.y) ^ 2) / (c.x - p.x) ^ 2 := by
        field_simp
        ring
      rw [expand, hs_sq]
      field_simp
    rw [key, Real.sqrt_sq hr]
  · intro hgt hfb
    simp only [Helper.LimitPointToCircle]
    rw [if_neg (not_le.mpr hgt), if_pos hfb]

/-- Witness for C3 (amended): a point inside the circle is unchanged;
clamping `(3,4)` to the unit circle around the origin lands at distance
1; and at the counterexample input the fallback `y = radius` fires. -/
theorem c3_limit_point_to_circle_amended_witness :
    Helper.LimitPointToCircle ⟨0, 0⟩ 5 ⟨3, 4⟩ = ⟨3, 4⟩ ∧
    Helper.GetDistanceBetweenTwoPoint ⟨0, 0⟩
      (Helper.LimitPointToCircle ⟨0, 0⟩ 1 ⟨3, 4⟩) = 1 ∧
    (Helper.LimitPointToCircle ⟨2, 3⟩ 1 ⟨5, 3⟩).y = 1 := by
  have hd5 : Helper.GetDistanceBetweenTwoPoint ⟨0, 0⟩ (⟨3, 4⟩ : Helper.Point) = 5 :=
    GetDistanceBetweenTwoPoint_eval _ _ 5 (by norm_num) (by norm_num)
  have hd1 : Helper.GetDistanceBetweenTwoPoint ⟨2, 3⟩ (⟨5, 3⟩ : Helper.Point) = 3 :=
    GetDistanceBetweenTwoPoint_eval _ _ 3 (by norm_num) (by norm_num)
  refine ⟨?_, ?_, ?_⟩
  · exact (c3_limit_point_to_circle_amended ⟨0, 0⟩ 5 ⟨3, 4⟩).1 (by rw [hd5])
  · exact (c3_limit_point_to_circle_amended ⟨0, 0⟩ 1 ⟨3, 4⟩).2.1 (by norm_num)
      (by rw [hd5]; norm_num) (by norm_num) (by norm_num) (by norm_num)
  · exact (c3_limit_point_to_circle_amended ⟨2, 3⟩ 1 ⟨5, 3⟩).2.2
      (by rw [hd1]; norm_num) (by norm_num)


